import Mathlib

/-!
Shallow embedding of `src/delinea.py` (module `delinea`, class `SSCreds`) and
the CLI in `src/main.py`.

The HTTP network is modelled as an environment (`Env`) holding the queue of
responses the remote server will return: one queue for the OAuth2 token
endpoint (`POST {base}oauth2/token`) and one for authenticated GETs, consumed
in program order.  Every outgoing request is recorded in a trace of `Event`s,
so "issues no HTTP request" is "the trace is unchanged".

Python dynamic values that are subscripted (`x[0]`, `x["code"]`) are modelled
by the inductive `PyVal` with a partial subscription operation returning
`Except Err`, mirroring Python `TypeError` / `IndexError` / `KeyError`.

A Python scoping fact that matters for the token cache: in
`SSCreds._getServerAccessToken` (src/delinea.py lines 220-221) and in
`SSCreds.get` (lines 261-262) the names `current_access_token` /
`current_refresh_token` are assigned without a `global` declaration, so those
assignments create function-local bindings and the module-level cache
variables are never written.  The embedding reproduces exactly that: the
`GlobalState` component is left unchanged at those two places.
-/

/-- Python values as far as this client manipulates them. -/
inductive PyVal where
  | vnone : PyVal
  | vint : Int → PyVal
  | vstr : String → PyVal
  | vlist : List PyVal → PyVal
  | vdict : List (String × PyVal) → PyVal

/-- Errors surfaced by the client: `httpx` status errors from
`raise_for_status`, the in-band access-denied `RuntimeError`, Python dynamic
type errors, and exhaustion of the modelled response queue (network down). -/
inductive Err where
  | httpStatus : Nat → Err
  | accessDenied : Err
  | typeError : String → Err
  | indexError : Err
  | keyError : String → Err
  | noResponse : Err
deriving DecidableEq, Repr

/-- Python subscription `v[k]`: strings index by int (one-character string),
lists index by int, dicts index by string key; every other combination is a
`TypeError`, mirroring CPython. -/
def pySubscript : PyVal → PyVal → Except Err PyVal
  | PyVal.vstr s, PyVal.vint i =>
      let cs := s.toList
      let j : Int := if i < 0 then i + cs.length else i
      if h : 0 ≤ j ∧ j.toNat < cs.length then
        Except.ok (PyVal.vstr (String.mk [cs.get ⟨j.toNat, h.2⟩]))
      else Except.error Err.indexError
  | PyVal.vstr _, _ => Except.error (Err.typeError "string indices must be integers")
  | PyVal.vlist xs, PyVal.vint i =>
      let j : Int := if i < 0 then i + xs.length else i
      if h : 0 ≤ j ∧ j.toNat < xs.length then
        Except.ok (xs.get ⟨j.toNat, h.2⟩)
      else Except.error Err.indexError
  | PyVal.vlist _, _ => Except.error (Err.typeError "list indices must be integers")
  | PyVal.vdict kvs, PyVal.vstr k =>
      match kvs.find? (fun kv => kv.1 = k) with
      | some kv => Except.ok kv.2
      | none => Except.error (Err.keyError k)
  | PyVal.vdict _, _ => Except.error (Err.typeError "unhashable or wrong key type")
  | PyVal.vint _, _ => Except.error (Err.typeError "int object is not subscriptable")
  | PyVal.vnone, _ => Except.error (Err.typeError "NoneType object is not subscriptable")

/-- Does the character list start with the pattern? -/
def charsStartWith : List Char → List Char → Bool
  | _, [] => true
  | [], _ :: _ => false
  | c :: cs, p :: ps => c == p && charsStartWith cs ps

/-- Does the pattern occur anywhere in the character list? -/
def charsContain (hay pat : List Char) : Bool :=
  charsStartWith hay pat ||
    match hay with
    | [] => false
    | _ :: t => charsContain t pat

/-- Python `needle in haystack` on strings (substring containment). -/
def containsSubstr (hay pat : String) : Bool :=
  charsContain hay.toList pat.toList

/-- Python `s.strip('"')`: remove all leading and trailing `"` characters. -/
def stripQuotes (s : String) : String :=
  String.mk (((s.toList.dropWhile (· == '"')).reverse.dropWhile (· == '"')).reverse)

/-- `httpx.Response.is_success`: 2xx. `raise_for_status` raises otherwise. -/
def isSuccess (status : Nat) : Bool :=
  200 ≤ status && status < 300

/-- One HTTP response as the client observes it: status code, raw body text
(`resp.text`), and the JSON value `resp.json()` would parse to. -/
structure HttpResponse where
  status : Nat
  text : String
  json : PyVal

/-- Body of a successful OAuth2 password-grant response; the four JSON fields
read by `_getServerAccessToken`. -/
structure OAuthBody where
  access_token : String
  tokenKind : String
  expires_in : Int
  refresh_token : String

/-- A response from `POST {base}oauth2/token`. -/
structure OAuthResp where
  status : Nat
  body : OAuthBody

/-- The module-level mutable cache: `current_access_token` and
`current_refresh_token` in delinea.py (lines 49-50). -/
structure GlobalState where
  current_access_token : Option String
  current_refresh_token : Option String

/-- Environment configuration plus the queues of responses the remote server
will produce, in order, for the two kinds of request the client sends. -/
structure Env where
  baseURL : String
  oauth : List OAuthResp
  gets : List HttpResponse

/-- Outgoing requests, in order.  `httpGet` records the Authorization header
value, the full URL string handed to `httpx` (base concatenated with the
path template, no substitution), and the query params dict. -/
inductive Event where
  | oauthPost : String → Event
  | httpGet : String → String → List (String × String) → Event
deriving DecidableEq, Repr

/-- Process state threaded through every operation: token cache, remaining
server responses, and the trace of requests issued so far. -/
structure St where
  globalSt : GlobalState
  env : Env
  trace : List Event

/-- Value of the `token_type` literal field of `SSCreds`. -/
inductive TokenType where
  | cached | server | refreshed
deriving DecidableEq, Repr

/-- The `SSCreds` pydantic model: declared fields and private attributes,
plus the memo slots that `functools.cached_property` stores in the instance
`__dict__` for `ident` and `secret`. -/
structure SSCreds where
  secret_id : Int
  slug_ident : String := "username"
  slug_secret : String := "password"
  cache_access_token : String := "delinea:access_token"
  cache_refresh_token : String := "delinea:refresh_token"
  cache_refresh_ctr : String := "delinea:refresh_ctr"
  init_uuid : String := ""
  token_type : TokenType := TokenType.cached
  sec_template : Int := 0
  sec_name : Option String := none
  nolog : Bool := false
  ident_memo : Option (Option String) := none
  secret_memo : Option String := none

/-- The fixed template classification list `SEC_NAME_AS_IDENT`
(delinea.py lines 44-47). -/
def SEC_NAME_AS_IDENT : List Int := [6041, 6047]

/-- Append an event to the trace. -/
def addEvent (st : St) (e : Event) : St :=
  { st with trace := st.trace ++ [e] }

/-- Consume the next OAuth-endpoint response. -/
def nextOauth (st : St) : Except Err (OAuthResp × St) :=
  match st.env.oauth with
  | [] => Except.error Err.noResponse
  | r :: rest => Except.ok (r, { st with env := { st.env with oauth := rest } })

/-- Consume the next GET response. -/
def nextGet (st : St) : Except Err (HttpResponse × St) :=
  match st.env.gets with
  | [] => Except.error Err.noResponse
  | r :: rest => Except.ok (r, { st with env := { st.env with gets := rest } })

namespace SSCreds

/-- `SSCreds._getServerAccessToken`: POST the password grant, raise for
status, read the four token fields.  The assignments to
`current_access_token` / `current_refresh_token` at lines 220-221 are
function-local rebindings (no `global` statement), so `GlobalState` is
returned unchanged; the function returns the local `current_access_token`,
i.e. the fresh `access_token`. -/
def getServerAccessToken (inst : SSCreds) (st : St) :
    Except Err (String × SSCreds × St) := do
  let st := addEvent st (Event.oauthPost (st.env.baseURL ++ "oauth2/token"))
  let (r, st) ← nextOauth st
  if isSuccess r.status then
    Except.ok (r.body.access_token, inst, st)
  else
    Except.error (Err.httpStatus r.status)

/-- `SSCreds._cachedAccessToken`: reads the module global. -/
def cachedAccessToken (st : St) : Option String :=
  st.globalSt.current_access_token

/-- `SSCreds._accessToken` (lines 137-148): cached token if present (marking
`token_type = "cached"`), otherwise a fresh server token. -/
def accessToken (inst : SSCreds) (st : St) : Except Err (String × SSCreds × St) :=
  match cachedAccessToken st with
  | some t => Except.ok (t, { inst with token_type := TokenType.cached }, st)
  | none => getServerAccessToken inst st

/-- `SSCreds._getHeaders`: the Authorization header value. -/
def getHeaders (inst : SSCreds) (st : St) : Except Err (String × SSCreds × St) := do
  let (t, inst, st) ← accessToken inst st
  Except.ok ("Bearer " ++ t, inst, st)

/-- The inner `sendRequest` closure of `SSCreds.get` (lines 245-256): build
headers, send, raise for non-2xx status, raise `RuntimeError` if the body
contains the access-denied marker. -/
def sendRequest (inst : SSCreds) (url : String) (params : List (String × String))
    (st : St) : Except Err (HttpResponse × SSCreds × St) := do
  let (auth, inst, st) ← getHeaders inst st
  let (resp, st) ← nextGet st
  let st := addEvent st (Event.httpGet auth (st.env.baseURL ++ url) params)
  if isSuccess resp.status then
    if containsSubstr resp.text "API_AccessDenied" then
      Except.error Err.accessDenied
    else
      Except.ok (resp, inst, st)
  else
    Except.error (Err.httpStatus resp.status)

/-- `SSCreds.get` (lines 240-267): one send; if the body contains the
expired-token marker, rebind the (function-local) token names and send once
more, then `raise_for_status` on the second response.  The globals are not
written (local rebinding), and the second response is not checked again for
the expired marker. -/
def get (inst : SSCreds) (url : String) (params : List (String × String))
    (st : St) : Except Err (HttpResponse × SSCreds × St) := do
  let (resp, inst, st) ← sendRequest inst url params st
  if containsSubstr resp.text "Authentication failed or expired token" then
    let (resp, inst, st) ← sendRequest inst url params st
    if isSuccess resp.status then
      Except.ok (resp, inst, st)
    else
      Except.error (Err.httpStatus resp.status)
  else
    Except.ok (resp, inst, st)

/-- `SSCreds._getSlug` (lines 158-167): authenticated GET of a field value,
`raise_for_status`, strip surrounding quotes from the body text. -/
def getSlug (inst : SSCreds) (slug : String) (st : St) :
    Except Err (String × SSCreds × St) := do
  let (resp, inst, st) ← get inst "api/v1/secrets/{id}/fields/{slug}"
      [("id", toString inst.secret_id), ("slug", slug)] st
  if isSuccess resp.status then
    Except.ok (stripQuotes resp.text, inst, st)
  else
    Except.error (Err.httpStatus resp.status)

/-- `SSCreds._getTOTP` (lines 174-183): authenticated GET of the
one-time-password endpoint; returns the raw body text with quotes stripped
(a string — the body is never JSON-parsed here). -/
def getTOTP (inst : SSCreds) (st : St) : Except Err (String × SSCreds × St) := do
  let (resp, inst, st) ← get inst "api/v1/one-time-password-code/{id}"
      [("id", toString inst.secret_id)] st
  if isSuccess resp.status then
    Except.ok (stripQuotes resp.text, inst, st)
  else
    Except.error (Err.httpStatus resp.status)

/-- `SSCreds.otp` property (lines 101-103): `self._getTOTP()[0]["code"]`,
evaluated with Python subscription semantics on the string `_getTOTP`
returns. -/
def otp (inst : SSCreds) (st : St) : Except Err (PyVal × SSCreds × St) := do
  let (s, inst, st) ← getTOTP inst st
  let first ← pySubscript (PyVal.vstr s) (PyVal.vint 0)
  let code ← pySubscript first (PyVal.vstr "code")
  Except.ok (code, inst, st)

/-- `SSCreds._getSecretSummary` (lines 185-189): GET the summary endpoint and
return the parsed JSON. -/
def getSecretSummary (inst : SSCreds) (st : St) :
    Except Err (PyVal × SSCreds × St) := do
  let (resp, inst, st) ← get inst "api/v1/secrets/{id}/summary"
      [("id", toString inst.secret_id)] st
  Except.ok (resp.json, inst, st)

/-- Read a mandatory int field of a summary dict (the declared type of
`_sec_template` is `int`). -/
def pyGetInt (v : PyVal) (k : String) : Except Err Int := do
  match (← pySubscript v (PyVal.vstr k)) with
  | PyVal.vint n => Except.ok n
  | _ => Except.error (Err.typeError "int expected")

/-- Read a mandatory str field of a summary dict (the declared type of
`_sec_name` is `str | None`). -/
def pyGetStr (v : PyVal) (k : String) : Except Err String := do
  match (← pySubscript v (PyVal.vstr k)) with
  | PyVal.vstr s => Except.ok s
  | _ => Except.error (Err.typeError "str expected")

/-- `SSCreds.model_post_init` (lines 119-127): fetch the summary and store
`secretTemplateId` into `_sec_template` and `name` into `_sec_name`. -/
def modelPostInit (inst : SSCreds) (st : St) : Except Err (SSCreds × St) := do
  let (summ, inst, st) ← getSecretSummary inst st
  let t ← pyGetInt summ "secretTemplateId"
  let n ← pyGetStr summ "name"
  Except.ok ({ inst with sec_template := t, sec_name := some n }, st)

/-- One access of the `ident` cached property (lines 79-94).
`functools.cached_property` semantics: if a memoised value exists it is
returned with no further effect; otherwise the getter body runs and its
result is stored.  The getter: if `slug_ident` equals the sentinel or the
template is classified, rewrite `slug_ident` to the sentinel and return
`_sec_name`; otherwise fetch the field via `_getSlug`. -/
def identAccess (inst : SSCreds) (st : St) :
    Except Err (Option String × SSCreds × St) :=
  match inst.ident_memo with
  | some v => Except.ok (v, inst, st)
  | none =>
    if inst.slug_ident = "$self._sec_name" ∨ inst.sec_template ∈ SEC_NAME_AS_IDENT then
      Except.ok (inst.sec_name,
        { inst with slug_ident := "$self._sec_name",
                    ident_memo := some inst.sec_name }, st)
    else
      match getSlug inst inst.slug_ident st with
      | Except.ok (v, inst, st) =>
          Except.ok (some v, { inst with ident_memo := some (some v) }, st)
      | Except.error e => Except.error e

/-- One access of the `secret` cached property (lines 96-99): memoised
`_getSlug` of `slug_secret`. -/
def secretAccess (inst : SSCreds) (st : St) :
    Except Err (String × SSCreds × St) :=
  match inst.secret_memo with
  | some v => Except.ok (v, inst, st)
  | none =>
    match getSlug inst inst.slug_secret st with
    | Except.ok (v, inst, st) =>
        Except.ok (v, { inst with secret_memo := some v }, st)
    | Except.error e => Except.error e

end SSCreds

/-- Number of password-grant calls in a trace. -/
def countOauth (tr : List Event) : Nat :=
  (tr.filter (fun e => match e with | Event.oauthPost _ => true | _ => false)).length

/-- Number of authenticated GET sends in a trace. -/
def countGets (tr : List Event) : Nat :=
  (tr.filter (fun e => match e with | Event.httpGet _ _ _ => true | _ => false)).length

/-- `Except.isOk` under a name local to this development. -/
def exceptIsOk {ε α : Type} : Except ε α → Bool
  | Except.ok _ => true
  | Except.error _ => false

/-- Final process state of a run, when it succeeded. -/
def runSt {α : Type} : Except Err (α × SSCreds × St) → Option St
  | Except.ok (_, _, st) => some st
  | Except.error _ => none

/-- Final instance of a run, when it succeeded. -/
def runInst {α : Type} : Except Err (α × SSCreds × St) → Option SSCreds
  | Except.ok (_, inst, _) => some inst
  | Except.error _ => none

/-- Value returned by a run, when it succeeded. -/
def runVal {α : Type} : Except Err (α × SSCreds × St) → Option α
  | Except.ok (v, _, _) => some v
  | Except.error _ => none

/-- Authorization header values of the GET sends in a trace, in order. -/
def getAuths (tr : List Event) : List String :=
  tr.filterMap (fun e => match e with
    | Event.httpGet a _ _ => some a
    | _ => none)

/-! ### Concrete fixtures used by the evaluating theorems -/

/-- A 200 response whose body is the expired-token marker text. -/
def respExpired : HttpResponse :=
  { status := 200, text := "Authentication failed or expired token", json := PyVal.vnone }

/-- A clean 200 response carrying a JSON-quoted field value. -/
def respClean : HttpResponse :=
  { status := 200, text := "\"svc-acct\"", json := PyVal.vnone }

/-- Module cache holding a stale token pair. -/
def gsStale : GlobalState :=
  { current_access_token := some "tokA", current_refresh_token := some "tokB" }

/-- Module cache holding no tokens (process start). -/
def gsEmpty : GlobalState :=
  { current_access_token := none, current_refresh_token := none }

/-- A default-slug instance for secret 1234. -/
def instFix : SSCreds := { secret_id := 1234 }

/-- Process state for the expired-marker scenario: stale cached tokens, the
server answers the first GET with the expired marker and the retry with a
clean 200. -/
def stC1 : St :=
  { globalSt := gsStale,
    env := { baseURL := "https://ss.example/", oauth := [],
             gets := [respExpired, respClean] },
    trace := [] }

/-- The expired-marker run of `SSCreds.get`. -/
def c1run : Except Err (HttpResponse × SSCreds × St) :=
  SSCreds.get instFix "api/v1/secrets/{id}/fields/{slug}"
    [("id", "1234"), ("slug", "username")] stC1

/-- C1: the retry exists and is single, and the retry's 200 clean response is
returned as success — but the process-wide token cache is NOT cleared: both
sends carry the same stale bearer token and the cache still holds it
afterwards, because the clearing assignments in `SSCreds.get` are
function-local.  This evaluates the code at the failing input of the claim. -/
theorem get_expired_retry_cache_not_cleared :
    (runVal c1run).map (fun r => (r.status, r.text)) = some (200, "\"svc-acct\"")
  ∧ (runSt c1run).map (fun st =>
      (countGets st.trace, countOauth st.trace, getAuths st.trace)) =
      some (2, 0, ["Bearer tokA", "Bearer tokA"])
  ∧ (runSt c1run).map (fun st =>
      (st.globalSt.current_access_token, st.globalSt.current_refresh_token)) =
      some (some "tokA", some "tokB") := by
  refine ⟨?_, ?_, ?_⟩ <;> decide

/-- A successful password-grant response carrying tokens `A1`/`R1`. -/
def oauthA1 : OAuthResp :=
  { status := 200,
    body := { access_token := "A1", tokenKind := "bearer",
              expires_in := 1200, refresh_token := "R1" } }

/-- A second successful password-grant response carrying tokens `A2`/`R2`. -/
def oauthA2 : OAuthResp :=
  { status := 200,
    body := { access_token := "A2", tokenKind := "bearer",
              expires_in := 1200, refresh_token := "R2" } }

/-- Process state at process start: empty cache, server ready to answer two
password-grant calls. -/
def stC2 : St :=
  { globalSt := gsEmpty,
    env := { baseURL := "https://ss.example/", oauth := [oauthA1, oauthA2],
             gets := [] },
    trace := [] }

/-- First token resolution of the process. -/
def c2run1 : Except Err (String × SSCreds × St) :=
  SSCreds.accessToken instFix stC2

/-- A second, independent token resolution, continuing from the first. -/
def c2run2 : Except Err (String × SSCreds × St) := do
  let (_, i, s) ← c2run1
  SSCreds.accessToken i s

/-- C2: the first resolution performs a password-grant call and returns the
fresh token, but stores nothing in the process-wide cache (the save in
`_getServerAccessToken` is a function-local rebinding); consequently a second
independent resolution performs a second password-grant call instead of
reusing a cached token.  This evaluates the code at the failing input. -/
theorem accessToken_not_cached_second_grant :
    runVal c2run1 = some "A1"
  ∧ (runSt c2run1).map (fun s =>
      (s.globalSt.current_access_token, s.globalSt.current_refresh_token,
       countOauth s.trace)) = some (none, none, 1)
  ∧ runVal c2run2 = some "A2"
  ∧ (runSt c2run2).map (fun s => countOauth s.trace) = some 2 := by
  refine ⟨?_, ?_, ?_, ?_⟩ <;> decide

/-- Subscripting a Python string by an int, when it succeeds, yields a
string again. -/
theorem pySubscript_vstr_vint (s : String) (i : Int) (v : PyVal)
    (h : pySubscript (PyVal.vstr s) (PyVal.vint i) = Except.ok v) :
    ∃ c, v = PyVal.vstr c := by
  simp only [pySubscript] at h
  split at h <;> split at h <;>
    first
      | exact ⟨_, (Except.ok.inj h).symm⟩
      | simp at h

/-- C4: the `otp` accessor can never return a value: `_getTOTP` hands it a
string (the response text, never JSON-parsed), Python string indexing `[0]`
yields a one-character string, and subscripting that string with `"code"` is
a `TypeError`.  Every run of `otp` errors. -/
theorem otp_never_succeeds (inst : SSCreds) (st : St) :
    exceptIsOk (SSCreds.otp inst st) = false := by
  unfold SSCreds.otp
  cases h : SSCreds.getTOTP inst st with
  | error e => simp [h, Bind.bind, Except.bind, exceptIsOk]
  | ok x =>
    obtain ⟨s, i, st2⟩ := x
    cases hs : pySubscript (PyVal.vstr s) (PyVal.vint 0) with
    | error e => simp [h, hs, Bind.bind, Except.bind, exceptIsOk]
    | ok v =>
      obtain ⟨c, rfl⟩ := pySubscript_vstr_vint s 0 v hs
      simp only [h, Bind.bind, Except.bind, hs]
      rfl

/-- C10: on an instance with no memoised identity whose identity slug already
equals the sentinel or whose template is classified, one `ident` access
rewrites `slug_ident` to the sentinel `"$self._sec_name"`, memoises
`_sec_name`, and changes nothing else: every other instance field and the
whole process state (so also the request trace) are unchanged. -/
theorem identAccess_sentinel_frame (inst : SSCreds) (st : St)
    (hmemo : inst.ident_memo = none)
    (hcond : inst.slug_ident = "$self._sec_name" ∨
             inst.sec_template ∈ SEC_NAME_AS_IDENT) :
    SSCreds.identAccess inst st =
      Except.ok (inst.sec_name,
        { inst with slug_ident := "$self._sec_name",
                    ident_memo := some inst.sec_name }, st) := by
  unfold SSCreds.identAccess
  rw [hmemo]
  rw [if_pos hcond]

/-- Witness for the frame theorem: a concrete classified instance. -/
theorem identAccess_sentinel_frame_witness :
    SSCreds.identAccess
        { secret_id := 9, sec_template := 6041, sec_name := some "IAM-svc" }
        { globalSt := gsEmpty,
          env := { baseURL := "https://b/", oauth := [], gets := [] },
          trace := [] } =
      Except.ok (some "IAM-svc",
        { secret_id := 9, sec_template := 6041, sec_name := some "IAM-svc",
          slug_ident := "$self._sec_name",
          ident_memo := some (some "IAM-svc") },
        { globalSt := gsEmpty,
          env := { baseURL := "https://b/", oauth := [], gets := [] },
          trace := [] }) :=
  identAccess_sentinel_frame _ _ rfl (Or.inr (by decide))

/-- C6: the `ident` and `secret` cached properties are idempotent: once a
first access has succeeded with value `v`, instance `inst2` and state `st2`,
every further access returns exactly `(v, inst2, st2)` — the same value, no
instance change, no state change, hence no additional HTTP request. -/
theorem cachedProperty_idempotent (inst : SSCreds) (st : St) :
    (∀ v inst2 st2, SSCreds.identAccess inst st = Except.ok (v, inst2, st2) →
        SSCreds.identAccess inst2 st2 = Except.ok (v, inst2, st2))
  ∧ (∀ v inst2 st2, SSCreds.secretAccess inst st = Except.ok (v, inst2, st2) →
        SSCreds.secretAccess inst2 st2 = Except.ok (v, inst2, st2)) := by
  constructor
  · intro v inst2 st2 h
    unfold SSCreds.identAccess at h ⊢
    cases hm : inst.ident_memo with
    | some m =>
      rw [hm] at h
      simp only [Except.ok.injEq, Prod.mk.injEq] at h
      obtain ⟨rfl, rfl, rfl⟩ := h
      rw [hm]
    | none =>
      rw [hm] at h
      by_cases hc : inst.slug_ident = "$self._sec_name" ∨
          inst.sec_template ∈ SEC_NAME_AS_IDENT
      · rw [if_pos hc] at h
        simp only [Except.ok.injEq, Prod.mk.injEq] at h
        obtain ⟨rfl, rfl, rfl⟩ := h
        rfl
      · rw [if_neg hc] at h
        cases hg : SSCreds.getSlug inst inst.slug_ident st with
        | error e => rw [hg] at h; cases h
        | ok x =>
          obtain ⟨w, i3, s3⟩ := x
          rw [hg] at h
          simp only [Except.ok.injEq, Prod.mk.injEq] at h
          obtain ⟨rfl, rfl, rfl⟩ := h
          rfl
  · intro v inst2 st2 h
    unfold SSCreds.secretAccess at h ⊢
    cases hm : inst.secret_memo with
    | some m =>
      rw [hm] at h
      simp only [Except.ok.injEq, Prod.mk.injEq] at h
      obtain ⟨rfl, rfl, rfl⟩ := h
      rw [hm]
    | none =>
      rw [hm] at h
      cases hg : SSCreds.getSlug inst inst.slug_secret st with
      | error e => rw [hg] at h; cases h
      | ok x =>
        obtain ⟨w, i3, s3⟩ := x
        rw [hg] at h
        simp only [Except.ok.injEq, Prod.mk.injEq] at h
        obtain ⟨rfl, rfl, rfl⟩ := h
        rfl

/-- A constructed-looking instance whose identity is the display name. -/
def instW6 : SSCreds :=
  { secret_id := 7, slug_ident := "$self._sec_name", sec_name := some "svc" }

/-- Same instance after its first `ident` access. -/
def instW6i : SSCreds :=
  { secret_id := 7, slug_ident := "$self._sec_name", sec_name := some "svc",
    ident_memo := some (some "svc") }

/-- Same instance after its first `secret` access. -/
def instW6s : SSCreds :=
  { secret_id := 7, slug_ident := "$self._sec_name", sec_name := some "svc",
    secret_memo := some "svc-acct" }

/-- State before the accesses: cached token, one field response queued. -/
def stW6 : St :=
  { globalSt := gsStale,
    env := { baseURL := "https://b/", oauth := [], gets := [respClean] },
    trace := [] }

/-- State after the first `secret` access: response consumed, one GET sent. -/
def stW6s : St :=
  { globalSt := gsStale,
    env := { baseURL := "https://b/", oauth := [], gets := [] },
    trace := [Event.httpGet "Bearer tokA" "https://b/api/v1/secrets/{id}/fields/{slug}"
                [("id", "7"), ("slug", "password")]] }

/-- Witness for idempotence: both second accesses return the memoised value
with the instance and state unchanged, at concrete inputs. -/
theorem cachedProperty_idempotent_witness :
    SSCreds.identAccess instW6i stW6 = Except.ok (some "svc", instW6i, stW6)
  ∧ SSCreds.secretAccess instW6s stW6s = Except.ok ("svc-acct", instW6s, stW6s) :=
  ⟨(cachedProperty_idempotent instW6 stW6).1 (some "svc") instW6i stW6 rfl,
   (cachedProperty_idempotent instW6 stW6).2 "svc-acct" instW6s stW6s rfl⟩

/-- C7: a GET answered with HTTP status 200 whose body contains the
access-denied marker raises the access-denied error instead of returning the
response (here under a cached token; the marker check happens inside
`sendRequest` right after `raise_for_status` passes). -/
theorem get_accessDenied_on_200 (inst : SSCreds) (url : String)
    (params : List (String × String)) (st : St) (tok : String)
    (r : HttpResponse) (rest : List HttpResponse)
    (hcache : st.globalSt.current_access_token = some tok)
    (hgets : st.env.gets = r :: rest)
    (hstatus : r.status = 200)
    (hmark : containsSubstr r.text "API_AccessDenied" = true) :
    SSCreds.get inst url params st = Except.error Err.accessDenied := by
  have hok : isSuccess r.status = true := by rw [hstatus]; rfl
  unfold SSCreds.get SSCreds.sendRequest SSCreds.getHeaders SSCreds.accessToken
    SSCreds.cachedAccessToken nextGet
  rw [hcache]
  simp [Bind.bind, Except.bind, hgets, addEvent, hok, hmark]

/-- Witness for the access-denied theorem at a concrete 200 response. -/
theorem get_accessDenied_on_200_witness :
    SSCreds.get instFix "api/v1/secrets/{id}/fields/{slug}" []
      { globalSt := gsStale,
        env := { baseURL := "https://b/", oauth := [],
                 gets := [{ status := 200,
                            text := "oops API_AccessDenied oops",
                            json := PyVal.vnone }] },
        trace := [] } = Except.error Err.accessDenied :=
  get_accessDenied_on_200 instFix _ [] _ "tokA" _ [] rfl rfl rfl (by decide)

/-- Retry scenario whose second response is a 200 carrying the access-denied
marker. -/
def stC3 : St :=
  { globalSt := gsStale,
    env := { baseURL := "https://b/", oauth := [],
             gets := [respExpired,
                      { status := 200, text := "nope API_AccessDenied",
                        json := PyVal.vnone }] },
    trace := [] }

/-- C3 counterexample: the claim says the single retry is checked for HTTP
status only and "is not rechecked for any marker text"; but the retry is the
same `sendRequest` closure, which does recheck the access-denied marker: a
200 retry response containing it makes `get` raise instead of succeeding. -/
theorem get_retry_rechecks_accessDenied :
    SSCreds.get instFix "api/v1/secrets/{id}/summary" [("id", "1234")] stC3 =
      Except.error Err.accessDenied := rfl

/-- C3 amended: the first send is checked for status and both markers; the
retry after an expired-token marker is checked for HTTP status and for the
access-denied marker (it runs through the same `sendRequest`), but is not
rechecked for the expired-token marker: a successful retry response without
the access-denied marker is returned as-is, even if it still contains the
expired-token marker, with exactly one retry. -/
theorem get_retry_asymmetric_checks (inst : SSCreds) (url : String)
    (params : List (String × String)) (st : St) (tok : String)
    (r1 r2 : HttpResponse) (rest : List HttpResponse)
    (hcache : st.globalSt.current_access_token = some tok)
    (hgets : st.env.gets = r1 :: r2 :: rest)
    (h1ok : isSuccess r1.status = true)
    (h1na : containsSubstr r1.text "API_AccessDenied" = false)
    (h1ex : containsSubstr r1.text "Authentication failed or expired token" = true) :
    (isSuccess r2.status = true → containsSubstr r2.text "API_AccessDenied" = true →
        SSCreds.get inst url params st = Except.error Err.accessDenied)
  ∧ (isSuccess r2.status = true → containsSubstr r2.text "API_AccessDenied" = false →
        SSCreds.get inst url params st =
          Except.ok (r2, { inst with token_type := TokenType.cached },
            { globalSt := st.globalSt,
              env := { st.env with gets := rest },
              trace := st.trace ++
                [Event.httpGet ("Bearer " ++ tok) (st.env.baseURL ++ url) params,
                 Event.httpGet ("Bearer " ++ tok) (st.env.baseURL ++ url) params] }))
  ∧ (isSuccess r2.status = false →
        SSCreds.get inst url params st = Except.error (Err.httpStatus r2.status)) := by
  refine ⟨?_, ?_, ?_⟩
  · intro h2ok h2m
    unfold SSCreds.get SSCreds.sendRequest SSCreds.getHeaders SSCreds.accessToken
      SSCreds.cachedAccessToken nextGet
    simp [Bind.bind, Except.bind, hcache, hgets, addEvent, h1ok, h1na, h1ex, h2ok, h2m]
  · intro h2ok h2m
    unfold SSCreds.get SSCreds.sendRequest SSCreds.getHeaders SSCreds.accessToken
      SSCreds.cachedAccessToken nextGet
    simp [Bind.bind, Except.bind, hcache, hgets, addEvent, h1ok, h1na, h1ex, h2ok, h2m]
  · intro h2bad
    have h2ns : isSuccess r2.status = true → False := by
      intro hx; rw [hx] at h2bad; cases h2bad
    unfold SSCreds.get SSCreds.sendRequest SSCreds.getHeaders SSCreds.accessToken
      SSCreds.cachedAccessToken nextGet
    simp [Bind.bind, Except.bind, hcache, hgets, addEvent, h1ok, h1na, h1ex, h2bad]

/-- Retry scenario whose second response still carries the expired marker. -/
def stC3b : St :=
  { globalSt := gsStale,
    env := { baseURL := "https://b/", oauth := [],
             gets := [respExpired, respExpired] },
    trace := [] }

/-- Retry scenario whose second response is a 500. -/
def stC3c : St :=
  { globalSt := gsStale,
    env := { baseURL := "https://b/", oauth := [],
             gets := [respExpired,
                      { status := 500, text := "ServerError", json := PyVal.vnone }] },
    trace := [] }

/-- Witness for the amended retry theorem, at concrete inputs for all three
cases: denied-marker retry raises, clean-status retry is returned even though
it still contains the expired marker, non-2xx retry propagates its status. -/
theorem get_retry_asymmetric_checks_witness :
    SSCreds.get instFix "u" [] stC3 = Except.error Err.accessDenied
  ∧ SSCreds.get instFix "u" [] stC3b =
      Except.ok (respExpired, { instFix with token_type := TokenType.cached },
        { globalSt := gsStale,
          env := { baseURL := "https://b/", oauth := [], gets := [] },
          trace := [Event.httpGet "Bearer tokA" "https://b/u" [],
                    Event.httpGet "Bearer tokA" "https://b/u" []] })
  ∧ SSCreds.get instFix "u" [] stC3c = Except.error (Err.httpStatus 500) :=
  ⟨(get_retry_asymmetric_checks instFix "u" [] stC3 "tokA" respExpired _ []
      rfl rfl (by decide) (by decide) (by decide)).1 (by decide) (by decide),
   (get_retry_asymmetric_checks instFix "u" [] stC3b "tokA" respExpired respExpired []
      rfl rfl (by decide) (by decide) (by decide)).2.1 (by decide) (by decide),
   (get_retry_asymmetric_checks instFix "u" [] stC3c "tokA" respExpired _ []
      rfl rfl (by decide) (by decide) (by decide)).2.2 (by decide)⟩

/-- An instance whose provenance field currently reads `"refreshed"`. -/
def instRef : SSCreds := { secret_id := 1234, token_type := TokenType.refreshed }

/-- Process start state with one pending password-grant response. -/
def stC8 : St :=
  { globalSt := gsEmpty,
    env := { baseURL := "https://b/", oauth := [oauthA1], gets := [] },
    trace := [] }

/-- The empty-cache token resolution run. -/
def c8run : Except Err (String × SSCreds × St) :=
  SSCreds.accessToken instRef stC8

/-- C8 counterexample: with no cached token, resolution performs a password
grant and returns the fresh token, but `token_type` is NOT set to `"server"`:
`_getServerAccessToken` never writes it, so it keeps its previous value
(here `"refreshed"`). -/
theorem accessToken_server_path_provenance_unset :
    runVal c8run = some "A1"
  ∧ (runInst c8run).map (fun i => i.token_type) = some TokenType.refreshed
  ∧ (runSt c8run).map (fun s => countOauth s.trace) = some 1 := by
  refine ⟨?_, ?_, ?_⟩ <;> decide

/-- C8 amended: a cache hit uses the cached token and marks provenance
`"cached"`; the server path obtains a fresh token via password grant but
leaves the provenance field (and the whole instance, and the process-wide
cache) unchanged. -/
theorem accessToken_provenance (inst : SSCreds) (st : St) :
    (∀ tok, st.globalSt.current_access_token = some tok →
      SSCreds.accessToken inst st =
        Except.ok (tok, { inst with token_type := TokenType.cached }, st))
  ∧ (st.globalSt.current_access_token = none →
      ∀ r rest, st.env.oauth = r :: rest → isSuccess r.status = true →
      SSCreds.accessToken inst st =
        Except.ok (r.body.access_token, inst,
          { globalSt := st.globalSt,
            env := { st.env with oauth := rest },
            trace := st.trace ++
              [Event.oauthPost (st.env.baseURL ++ "oauth2/token")] })) := by
  constructor
  · intro tok hcache
    unfold SSCreds.accessToken SSCreds.cachedAccessToken
    rw [hcache]
  · intro hnone r rest hoauth hok
    unfold SSCreds.accessToken SSCreds.cachedAccessToken
      SSCreds.getServerAccessToken nextOauth
    rw [hnone]
    simp [Bind.bind, Except.bind, addEvent, hoauth, hok]

/-- Witness for the provenance theorem: both branches at concrete inputs. -/
theorem accessToken_provenance_witness :
    SSCreds.accessToken instFix stC1 =
      Except.ok ("tokA", { instFix with token_type := TokenType.cached }, stC1)
  ∧ SSCreds.accessToken instRef stC8 =
      Except.ok ("A1", instRef,
        { globalSt := gsEmpty,
          env := { baseURL := "https://b/", oauth := [], gets := [] },
          trace := [Event.oauthPost "https://b/oauth2/token"] }) :=
  ⟨(accessToken_provenance instFix stC1).1 "tokA" rfl,
   (accessToken_provenance instRef stC8).2 rfl oauthA1 [] rfl (by decide)⟩

/-- A field-fetch scenario: cached token, one clean field response queued. -/
def stC9 : St :=
  { globalSt := gsStale,
    env := { baseURL := "https://b/", oauth := [], gets := [respClean] },
    trace := [] }

/-- The field-value fetch for secret 1234, slug "username". -/
def c9run : Except Err (String × SSCreds × St) :=
  SSCreds.getSlug instFix "username" stC9

/-- C9: the URL handed to the HTTP client is the base concatenated with the
literal template `api/v1/secrets/{id}/fields/{slug}` — `{id}` and `{slug}`
are never substituted into the path; the identifier and slug travel as query
parameters instead (httpx does no path templating).  The sent URL still
contains the literal text `{id}` and does not contain `1234`. -/
theorem getSlug_url_not_substituted :
    runVal c9run = some "svc-acct"
  ∧ (runSt c9run).map (fun s => s.trace) =
      some [Event.httpGet "Bearer tokA" "https://b/api/v1/secrets/{id}/fields/{slug}"
              [("id", "1234"), ("slug", "username")]]
  ∧ containsSubstr "https://b/api/v1/secrets/{id}/fields/{slug}" "{id}" = true
  ∧ containsSubstr "https://b/api/v1/secrets/{id}/fields/{slug}" "1234" = false := by
  refine ⟨?_, ?_, ?_, ?_⟩ <;> decide

/-- C5: constructing a client against a summary response whose template id is
in the classification set stores the display name, and the subsequent
`ident` access returns that display name with the process state untouched —
no field-level GET is issued for identity. -/
theorem classified_template_ident_is_name (sid : Int) (uuid : String)
    (st : St) (tok : String) (tmpl : Int) (nm : String)
    (r : HttpResponse) (rest : List HttpResponse)
    (hcache : st.globalSt.current_access_token = some tok)
    (hgets : st.env.gets = r :: rest)
    (hok : isSuccess r.status = true)
    (hna : containsSubstr r.text "API_AccessDenied" = false)
    (hne : containsSubstr r.text "Authentication failed or expired token" = false)
    (hjson : r.json = PyVal.vdict
        [("secretTemplateId", PyVal.vint tmpl), ("name", PyVal.vstr nm)])
    (htmpl : tmpl ∈ SEC_NAME_AS_IDENT) :
    ∃ inst1 st1,
      SSCreds.modelPostInit { secret_id := sid, init_uuid := uuid } st =
        Except.ok (inst1, st1)
      ∧ inst1.sec_name = some nm
      ∧ SSCreds.identAccess inst1 st1 =
          Except.ok (some nm,
            { inst1 with slug_ident := "$self._sec_name",
                         ident_memo := some (some nm) }, st1) := by
  refine ⟨{ secret_id := sid, init_uuid := uuid,
            token_type := TokenType.cached,
            sec_template := tmpl, sec_name := some nm },
          { globalSt := st.globalSt,
            env := { st.env with gets := rest },
            trace := st.trace ++
              [Event.httpGet ("Bearer " ++ tok)
                (st.env.baseURL ++ "api/v1/secrets/{id}/summary")
                [("id", toString sid)]] }, ?_, rfl, ?_⟩
  · unfold SSCreds.modelPostInit SSCreds.getSecretSummary SSCreds.get
      SSCreds.sendRequest SSCreds.getHeaders SSCreds.accessToken
      SSCreds.cachedAccessToken nextGet SSCreds.pyGetInt SSCreds.pyGetStr
    simp [Bind.bind, Except.bind, hcache, hgets, addEvent, hok, hna, hne,
      hjson, pySubscript, List.find?]
  · unfold SSCreds.identAccess
    rw [if_pos (Or.inr htmpl)]

/-- Construction-time state for the classified-template witness. -/
def stC5 : St :=
  { globalSt := gsStale,
    env := { baseURL := "https://b/", oauth := [],
             gets := [{ status := 200, text := "summary-body",
                        json := PyVal.vdict
                          [("secretTemplateId", PyVal.vint 6047),
                           ("name", PyVal.vstr "IAM-acct")] }] },
    trace := [] }

/-- Witness for the classified-template theorem at a concrete summary. -/
theorem classified_template_ident_is_name_witness :
    ∃ inst1 st1,
      SSCreds.modelPostInit { secret_id := 55, init_uuid := "u-1" } stC5 =
        Except.ok (inst1, st1)
      ∧ inst1.sec_name = some "IAM-acct"
      ∧ SSCreds.identAccess inst1 st1 =
          Except.ok (some "IAM-acct",
            { inst1 with slug_ident := "$self._sec_name",
                         ident_memo := some (some "IAM-acct") }, st1) :=
  classified_template_ident_is_name 55 "u-1" stC5 "tokA" 6047 "IAM-acct" _ []
    rfl rfl (by decide) (by decide) (by decide) rfl (by decide)
